import Mathlib

/-!
Verification of the `hospital-srt` device repository layer.

The repository tracks computers, medical devices and "frequent" computers
entering and leaving a facility.  Two implementations of the
`DeviceRepository` interface are embedded here:

* `InMemoryDeviceRepository` — the in-memory reference implementation
  (`src/adapter/repository/memory`), four JS `Map`s, modelled as
  association lists with explicit state passing;
* `SupabaseDeviceRepository` — the Supabase-backed implementation
  (`src/adapter/repository/supabase/index.ts`), modelled as three row
  tables with a deterministic PostgREST-style client (insert fails on a
  duplicate primary key, zero-row updates succeed, `.single()` errors
  unless exactly one row matches, `.range(from, to)` sets the offset and
  overrides the limit to `to - from + 1`).

JS `Date` values are modelled as `Nat`, `URL` values as their serialized
`String` (JS `new URL(u.toString())` re-serializes to the same string),
and thrown errors as `Except` results.
-/

namespace HospitalSRT

/-- Errors surfaced by the repository layer.  `deviceNotFound` is
`SERVICE_ERRORS.DeviceNotFound` thrown by the in-memory store.  The
remaining constructors are backend (Supabase/PostgREST) failures that the
repository re-throws unchanged: `duplicateKey` is the unique-constraint
violation on insert, `noSingleRow` the `.single()` zero/multiple-row
error, `badColumn` an unknown column in a filter or sort, and
`typeError` the JS `TypeError` from dereferencing `undefined`. -/
inductive RepoError where
  | deviceNotFound
  | duplicateKey
  | noSingleRow
  | badColumn
  | typeError
deriving DecidableEq

/-- Results of fallible repository operations are compared up to
decidable equality (used by the concrete witnesses below). -/
instance {ε α : Type} [DecidableEq ε] [DecidableEq α] : DecidableEq (Except ε α) := fun x y =>
  match x, y with
  | Except.ok a, Except.ok b =>
    if h : a = b then Decidable.isTrue (congrArg Except.ok h)
    else Decidable.isFalse (fun hc => h (Except.ok.inj hc))
  | Except.error e1, Except.error e2 =>
    if h : e1 = e2 then Decidable.isTrue (congrArg Except.error h)
    else Decidable.isFalse (fun hc => h (Except.error.inj hc))
  | Except.ok _, Except.error _ => Decidable.isFalse (fun hc => Except.noConfusion hc)
  | Except.error _, Except.ok _ => Decidable.isFalse (fun hc => Except.noConfusion hc)

/-- Modelled from the spec: `Owner` (`@core/domain` is not under src/) —
`{id, name}`, embedded in device records. -/
structure Owner where
  id : String
  name : String
deriving DecidableEq

/-- Modelled from the spec: `Computer` (`@core/domain` is not under src/) —
`{id, brand, model, owner, photoURL, updatedAt, checkinAt?, checkoutAt?}`. -/
structure Computer where
  id : String
  brand : String
  model : String
  owner : Owner
  photoURL : String
  updatedAt : Nat
  checkinAt : Option Nat
  checkoutAt : Option Nat
deriving DecidableEq

/-- Modelled from the spec: `MedicalDevice` — Computer's attributes plus
`serial`. -/
structure MedicalDevice where
  id : String
  brand : String
  model : String
  owner : Owner
  photoURL : String
  serial : String
  updatedAt : Nat
  checkinAt : Option Nat
  checkoutAt : Option Nat
deriving DecidableEq

/-- Modelled from the spec: `FrequentComputer` — wraps a Computer plus two
capability URLs. -/
structure FrequentComputer where
  device : Computer
  checkinURL : String
  checkoutURL : String
deriving DecidableEq

/-- The category tag of an entered device ("computer", "medical-device",
"frequent-computer"). -/
inductive DeviceType where
  | computer
  | medicalDevice
  | frequentComputer
deriving DecidableEq

/-- Modelled from the spec: `EnteredDevice` — the read projection over the
three categories, with the fields common to the object literals both
implementations construct (id, brand, model, owner, updatedAt, checkinAt)
plus the category tag. -/
structure EnteredDevice where
  id : String
  brand : String
  model : String
  owner : Owner
  updatedAt : Nat
  checkinAt : Option Nat
  type : DeviceType
deriving DecidableEq

/-- A column value in the backing store: a string column or a nullable
timestamp column. -/
inductive ColVal where
  | s (v : String)
  | n (v : Option Nat)
deriving DecidableEq

/-- Modelled from the spec: the `filterBy` component of `DeviceCriteria` —
a single exact-match predicate. -/
structure FilterBy where
  field : String
  value : ColVal
deriving DecidableEq

/-- Modelled from the spec: the `sortBy` component of `DeviceCriteria`. -/
structure SortBy where
  field : String
  isAscending : Bool
deriving DecidableEq

/-- Modelled from the spec: `DeviceCriteria` — optional exact-match
filter, optional sort, optional limit/offset pagination. -/
structure DeviceCriteria where
  filterBy : Option FilterBy := none
  sortBy : Option SortBy := none
  limit : Option Nat := none
  offset : Option Nat := none
deriving DecidableEq

/-! ## Association lists modelling JS `Map`

JS `Map.set` replaces the value in place when the key exists (keeping the
insertion position) and appends otherwise; `Map.delete` removes the entry;
`values()` iterates in insertion order. -/

namespace AList

variable {α : Type}

/-- `Map.get` -/
def get (m : List (String × α)) (k : String) : Option α :=
  (m.find? (fun p => p.1 = k)).map (·.2)

/-- `Map.has` -/
def has (m : List (String × α)) (k : String) : Bool :=
  m.any (fun p => p.1 = k)

/-- `Map.set`: replace in place when present, append otherwise. -/
def set (m : List (String × α)) (k : String) (v : α) : List (String × α) :=
  if has m k then m.map (fun p => if p.1 = k then (k, v) else p)
  else m ++ [(k, v)]

/-- `Map.delete` -/
def del (m : List (String × α)) (k : String) : List (String × α) :=
  m.filter (fun p => ¬ p.1 = k)

/-- `Array.from(map.values())` -/
def values (m : List (String × α)) : List α :=
  m.map (·.2)

end AList

/-! ## In-memory implementation (`InMemoryDeviceRepository`) -/

/-- The four private `Map`s of `InMemoryDeviceRepository`. -/
structure MemState where
  computers : List (String × Computer)
  medicalDevices : List (String × MedicalDevice)
  enteredDevices : List (String × EnteredDevice)
  frequentComputer : List (String × FrequentComputer)
deriving DecidableEq

/-- The empty repository produced by the constructor. -/
def MemState.empty : MemState :=
  { computers := [], medicalDevices := [], enteredDevices := [], frequentComputer := [] }

namespace InMemoryDeviceRepository

/-- `getComputers(criteria)`: ignores the criteria and returns every
stored computer. -/
def getComputers (st : MemState) (_criteria : DeviceCriteria) : List Computer :=
  AList.values st.computers

/-- `getMedicalDevices(criteria)`: ignores the criteria. -/
def getMedicalDevices (st : MemState) (_criteria : DeviceCriteria) : List MedicalDevice :=
  AList.values st.medicalDevices

/-- `registerFrequentComputer(computer)`: unconditionally `set`s the map
entry (overwriting any existing record) and returns the input. -/
def registerFrequentComputer (st : MemState) (computer : FrequentComputer) :
    FrequentComputer × MemState :=
  (computer,
    { st with frequentComputer := AList.set st.frequentComputer computer.device.id computer })

/-- `getFrequentComputers(criteria)`: ignores the criteria. -/
def getFrequentComputers (st : MemState) (_criteria : DeviceCriteria) : List FrequentComputer :=
  AList.values st.frequentComputer

/-- `getEnteredDevices(criteria)`: ignores the criteria and returns the
entered-devices index values. -/
def getEnteredDevices (st : MemState) (_criteria : DeviceCriteria) : List EnteredDevice :=
  AList.values st.enteredDevices

/-- `mapDeviceFromComputer`: the entered-devices projection of a computer;
`updatedAt` and `checkinAt` are both `new Date()`, modelled by `now`. -/
def mapDeviceFromComputer (now : Nat) (computer : Computer) : EnteredDevice :=
  { id := computer.id, brand := computer.brand, model := computer.model,
    owner := computer.owner, updatedAt := now, checkinAt := some now,
    type := DeviceType.computer }

/-- `mapDeviceFromMedicalDevice` -/
def mapDeviceFromMedicalDevice (now : Nat) (device : MedicalDevice) : EnteredDevice :=
  { id := device.id, brand := device.brand, model := device.model,
    owner := device.owner, updatedAt := now, checkinAt := some now,
    type := DeviceType.medicalDevice }

/-- `mapDeviceFrequentComputer` -/
def mapDeviceFrequentComputer (now : Nat) (computer : FrequentComputer) : EnteredDevice :=
  { id := computer.device.id, brand := computer.device.brand,
    model := computer.device.model, owner := computer.device.owner,
    updatedAt := now, checkinAt := some now,
    type := DeviceType.frequentComputer }

/-- `checkinComputer(computer)`: stores the input as-is in `computers`,
adds the projection to `enteredDevices`, returns the input unchanged.
`now` models the `new Date()` calls inside `mapDeviceFromComputer`. -/
def checkinComputer (st : MemState) (now : Nat) (computer : Computer) :
    Computer × MemState :=
  (computer,
    { st with
      computers := AList.set st.computers computer.id computer,
      enteredDevices :=
        AList.set st.enteredDevices computer.id (mapDeviceFromComputer now computer) })

/-- `checkinMedicalDevice(device)` -/
def checkinMedicalDevice (st : MemState) (now : Nat) (device : MedicalDevice) :
    MedicalDevice × MemState :=
  (device,
    { st with
      medicalDevices := AList.set st.medicalDevices device.id device,
      enteredDevices :=
        AList.set st.enteredDevices device.id (mapDeviceFromMedicalDevice now device) })

/-- `checkinFrequentComputer(id, datetime)`: throws `DeviceNotFound` when
the id is unregistered; otherwise mutates the stored record's
`device.checkinAt` (reference semantics: the map entry and the returned
record are the same object), refreshes the entered-devices entry, and
returns the record. -/
def checkinFrequentComputer (st : MemState) (now : Nat) (id : String) (datetime : Nat) :
    Except RepoError (FrequentComputer × MemState) :=
  match AList.get st.frequentComputer id with
  | none => Except.error RepoError.deviceNotFound
  | some computer =>
    let computer' :=
      { computer with device := { computer.device with checkinAt := some datetime } }
    Except.ok (computer',
      { st with
        frequentComputer := AList.set st.frequentComputer id computer',
        enteredDevices :=
          AList.set st.enteredDevices id (mapDeviceFrequentComputer now computer') })

/-- `checkoutDevice(id, datetime)`: throws `DeviceNotFound` when the id is
not in the entered-devices index; otherwise stamps `checkoutAt` on the one
record named by the entry's `type` tag, and deletes the id from the index.
Dereferencing a missing category record (`.get(id)!`) is the JS
`TypeError` crash, modelled as `RepoError.typeError`. -/
def checkoutDevice (st : MemState) (id : String) (datetime : Nat) :
    Except RepoError MemState :=
  match AList.get st.enteredDevices id with
  | none => Except.error RepoError.deviceNotFound
  | some device =>
    match device.type with
    | DeviceType.computer =>
      match AList.get st.computers id with
      | none => Except.error RepoError.typeError
      | some c =>
        Except.ok
          { st with
            computers := AList.set st.computers id { c with checkoutAt := some datetime },
            enteredDevices := AList.del st.enteredDevices id }
    | DeviceType.medicalDevice =>
      match AList.get st.medicalDevices id with
      | none => Except.error RepoError.typeError
      | some d =>
        Except.ok
          { st with
            medicalDevices :=
              AList.set st.medicalDevices id { d with checkoutAt := some datetime },
            enteredDevices := AList.del st.enteredDevices id }
    | DeviceType.frequentComputer =>
      match AList.get st.frequentComputer id with
      | none => Except.error RepoError.typeError
      | some f =>
        Except.ok
          { st with
            frequentComputer :=
              AList.set st.frequentComputer id
                { f with device := { f.device with checkoutAt := some datetime } },
            enteredDevices := AList.del st.enteredDevices id }

/-- `isDeviceEntered(id)` -/
def isDeviceEntered (st : MemState) (id : String) : Bool :=
  AList.has st.enteredDevices id

/-- `isFrequentComputerRegistered(id)` -/
def isFrequentComputerRegistered (st : MemState) (id : String) : Bool :=
  AList.has st.frequentComputer id

end InMemoryDeviceRepository

/-! ## Supabase-backed implementation (`SupabaseDeviceRepository`)

The three tables of the external schema (spec §6: `id` is the primary
key in each).  The PostgREST-style client is deterministic: an insert
fails with a unique-constraint violation iff a row with the same id
exists, an update matching zero rows succeeds, `.single()` errors unless
exactly one row matches, `.maybeSingle()` errors on more than one row.
Backend connectivity faults are modelled only where a claim is about
them (the three update calls of `checkoutDevice`). -/

/-- A row of the `computers` table. -/
structure ComputerRow where
  id : String
  brand : String
  model : String
  owner_id : String
  owner_name : String
  photo_url : String
  updated_at : Nat
  checkin_at : Option Nat
  checkout_at : Option Nat
deriving DecidableEq

/-- A row of the `medical_devices` table (adds `serial`). -/
structure MedicalRow where
  id : String
  brand : String
  model : String
  owner_id : String
  owner_name : String
  photo_url : String
  serial : String
  updated_at : Nat
  checkin_at : Option Nat
  checkout_at : Option Nat
deriving DecidableEq

/-- A row of the `frequent_computers` table (adds the capability URLs). -/
structure FrequentRow where
  id : String
  brand : String
  model : String
  owner_id : String
  owner_name : String
  photo_url : String
  updated_at : Nat
  checkin_at : Option Nat
  checkout_at : Option Nat
  checkin_url : String
  checkout_url : String
deriving DecidableEq

/-- The remote store: the three tables. -/
structure SupaState where
  computers : List ComputerRow
  medical_devices : List MedicalRow
  frequent_computers : List FrequentRow
deriving DecidableEq

/-- The empty store. -/
def SupaState.empty : SupaState :=
  { computers := [], medical_devices := [], frequent_computers := [] }

/-- Dynamic column access on a `computers` row. -/
def ComputerRow.getField (r : ComputerRow) (f : String) : Option ColVal :=
  if f = "id" then some (ColVal.s r.id)
  else if f = "brand" then some (ColVal.s r.brand)
  else if f = "model" then some (ColVal.s r.model)
  else if f = "owner_id" then some (ColVal.s r.owner_id)
  else if f = "owner_name" then some (ColVal.s r.owner_name)
  else if f = "photo_url" then some (ColVal.s r.photo_url)
  else if f = "updated_at" then some (ColVal.n (some r.updated_at))
  else if f = "checkin_at" then some (ColVal.n r.checkin_at)
  else if f = "checkout_at" then some (ColVal.n r.checkout_at)
  else none

/-- Dynamic column access on a `medical_devices` row. -/
def MedicalRow.getField (r : MedicalRow) (f : String) : Option ColVal :=
  if f = "id" then some (ColVal.s r.id)
  else if f = "brand" then some (ColVal.s r.brand)
  else if f = "model" then some (ColVal.s r.model)
  else if f = "owner_id" then some (ColVal.s r.owner_id)
  else if f = "owner_name" then some (ColVal.s r.owner_name)
  else if f = "photo_url" then some (ColVal.s r.photo_url)
  else if f = "serial" then some (ColVal.s r.serial)
  else if f = "updated_at" then some (ColVal.n (some r.updated_at))
  else if f = "checkin_at" then some (ColVal.n r.checkin_at)
  else if f = "checkout_at" then some (ColVal.n r.checkout_at)
  else none

/-- Dynamic column access on a `frequent_computers` row. -/
def FrequentRow.getField (r : FrequentRow) (f : String) : Option ColVal :=
  if f = "id" then some (ColVal.s r.id)
  else if f = "brand" then some (ColVal.s r.brand)
  else if f = "model" then some (ColVal.s r.model)
  else if f = "owner_id" then some (ColVal.s r.owner_id)
  else if f = "owner_name" then some (ColVal.s r.owner_name)
  else if f = "photo_url" then some (ColVal.s r.photo_url)
  else if f = "updated_at" then some (ColVal.n (some r.updated_at))
  else if f = "checkin_at" then some (ColVal.n r.checkin_at)
  else if f = "checkout_at" then some (ColVal.n r.checkout_at)
  else if f = "checkin_url" then some (ColVal.s r.checkin_url)
  else if f = "checkout_url" then some (ColVal.s r.checkout_url)
  else none

/-- The columns of `computers`. -/
def computerCols : List String :=
  ["id", "brand", "model", "owner_id", "owner_name", "photo_url",
   "updated_at", "checkin_at", "checkout_at"]

/-- The columns of `medical_devices`. -/
def medicalCols : List String :=
  ["id", "brand", "model", "owner_id", "owner_name", "photo_url", "serial",
   "updated_at", "checkin_at", "checkout_at"]

/-- The columns of `frequent_computers`. -/
def frequentCols : List String :=
  ["id", "brand", "model", "owner_id", "owner_name", "photo_url",
   "updated_at", "checkin_at", "checkout_at", "checkin_url", "checkout_url"]

/-- Ordering on sort keys (strings lexicographic, timestamps numeric,
`NULL`s last, kinds incomparable in an arbitrary but fixed way). -/
def colKeyLe (a b : Option ColVal) : Bool :=
  match a, b with
  | none, none => true
  | none, some _ => false
  | some _, none => true
  | some (ColVal.s x), some (ColVal.s y) => x ≤ y
  | some (ColVal.n x), some (ColVal.n y) =>
    match x, y with
    | none, none => true
    | none, some _ => false
    | some _, none => true
    | some x', some y' => x' ≤ y'
  | some (ColVal.s _), some (ColVal.n _) => true
  | some (ColVal.n _), some (ColVal.s _) => false

/-- Insert into a list sorted by `le`. -/
def insertLe {ρ : Type} (le : ρ → ρ → Bool) (x : ρ) : List ρ → List ρ
  | [] => [x]
  | y :: ys => if le x y then x :: y :: ys else y :: insertLe le x ys

/-- Insertion sort by `le` (models the backend `ORDER BY`). -/
def sortRows {ρ : Type} (le : ρ → ρ → Bool) : List ρ → List ρ
  | [] => []
  | x :: xs => insertLe le x (sortRows le xs)

/-- `.limit(n)` / `.range(offset, offset + (limit ?? 10) - 1)` as issued by
the repository (lines 165-170 and their clones): `.range(from, to)` sets
the offset to `from` and overrides the limit to `to - from + 1`, so an
offset with no explicit limit gets the default page size 10. -/
def applyWindow {ρ : Type} (criteria : DeviceCriteria) (rows : List ρ) : List ρ :=
  match criteria.offset with
  | some o => (rows.drop o).take (criteria.limit.getD 10)
  | none =>
    match criteria.limit with
    | some l => rows.take l
    | none => rows

/-- Sort and window stages of a criteria query. -/
def applySortWindow {ρ : Type} (getF : ρ → String → Option ColVal) (cols : List String)
    (criteria : DeviceCriteria) (rows : List ρ) : Except RepoError (List ρ) :=
  match criteria.sortBy with
  | some sb =>
    if sb.field ∈ cols then
      Except.ok (applyWindow criteria
        (sortRows (fun r1 r2 =>
          if sb.isAscending then colKeyLe (getF r1 sb.field) (getF r2 sb.field)
          else colKeyLe (getF r2 sb.field) (getF r1 sb.field)) rows))
    else Except.error RepoError.badColumn
  | none => Except.ok (applyWindow criteria rows)

/-- `select("*")` with the repository's criteria translation: optional
`.eq(field, value)`, optional `.order(field, {ascending})`, optional
`.limit` / `.range`.  An unknown column in the filter or the sort is a
backend error. -/
def applyCriteria {ρ : Type} (getF : ρ → String → Option ColVal) (cols : List String)
    (criteria : DeviceCriteria) (rows : List ρ) : Except RepoError (List ρ) :=
  match criteria.filterBy with
  | some fb =>
    if fb.field ∈ cols then
      applySortWindow getF cols criteria
        (rows.filter (fun r => getF r fb.field = some fb.value))
    else Except.error RepoError.badColumn
  | none => applySortWindow getF cols criteria rows

/-- `.maybeSingle()`: `data` is the row when exactly one matches and
`null` otherwise (zero rows: no error, `data` null; several rows: error,
`data` null). -/
def maybeSingleData {ρ : Type} (rows : List ρ) : Option ρ :=
  match rows with
  | [r] => some r
  | _ => none

/-- Domain mapping of a `computers` row (lines 175-184). -/
def Computer.ofRow (r : ComputerRow) : Computer :=
  { id := r.id, brand := r.brand, model := r.model,
    owner := { id := r.owner_id, name := r.owner_name },
    photoURL := r.photo_url, updatedAt := r.updated_at,
    checkinAt := r.checkin_at, checkoutAt := r.checkout_at }

/-- Domain mapping of a `medical_devices` row (lines 232-242). -/
def MedicalDevice.ofRow (r : MedicalRow) : MedicalDevice :=
  { id := r.id, brand := r.brand, model := r.model,
    owner := { id := r.owner_id, name := r.owner_name },
    photoURL := r.photo_url, serial := r.serial, updatedAt := r.updated_at,
    checkinAt := r.checkin_at, checkoutAt := r.checkout_at }

/-- Domain mapping of a `frequent_computers` row (lines 78-91). -/
def FrequentComputer.ofRow (r : FrequentRow) : FrequentComputer :=
  { device :=
      { id := r.id, brand := r.brand, model := r.model,
        owner := { id := r.owner_id, name := r.owner_name },
        photoURL := r.photo_url, updatedAt := r.updated_at,
        checkinAt := r.checkin_at, checkoutAt := r.checkout_at },
    checkinURL := r.checkin_url, checkoutURL := r.checkout_url }

/-- The row inserted by `registerFrequentComputer` (lines 37-48):
`checkin_at` comes from the input, `checkout_at` is not supplied. -/
def frequentInsertRow (computer : FrequentComputer) : FrequentRow :=
  { id := computer.device.id, brand := computer.device.brand,
    model := computer.device.model, owner_id := computer.device.owner.id,
    owner_name := computer.device.owner.name,
    photo_url := computer.device.photoURL,
    updated_at := computer.device.updatedAt,
    checkin_at := computer.device.checkinAt, checkout_at := none,
    checkin_url := computer.checkinURL, checkout_url := computer.checkoutURL }

/-- The row inserted by `checkinComputer` (lines 137-148): `checkin_at`
is the current time `now`, the input's `checkinAt`/`checkoutAt` are not
supplied. -/
def computerInsertRow (now : Nat) (computer : Computer) : ComputerRow :=
  { id := computer.id, brand := computer.brand, model := computer.model,
    owner_id := computer.owner.id, owner_name := computer.owner.name,
    photo_url := computer.photoURL, updated_at := computer.updatedAt,
    checkin_at := some now, checkout_at := none }

/-- The row inserted by `checkinMedicalDevice` (lines 193-205). -/
def medicalInsertRow (now : Nat) (device : MedicalDevice) : MedicalRow :=
  { id := device.id, brand := device.brand, model := device.model,
    owner_id := device.owner.id, owner_name := device.owner.name,
    photo_url := device.photoURL, serial := device.serial,
    updated_at := device.updatedAt, checkin_at := some now,
    checkout_at := none }

/-- `{...computer, type: "computer"}` projected onto `EnteredDevice`. -/
def enteredOfComputer (c : Computer) : EnteredDevice :=
  { id := c.id, brand := c.brand, model := c.model, owner := c.owner,
    updatedAt := c.updatedAt, checkinAt := c.checkinAt,
    type := DeviceType.computer }

/-- `{...device, type: "medical-device"}` projected onto `EnteredDevice`. -/
def enteredOfMedicalDevice (d : MedicalDevice) : EnteredDevice :=
  { id := d.id, brand := d.brand, model := d.model, owner := d.owner,
    updatedAt := d.updatedAt, checkinAt := d.checkinAt,
    type := DeviceType.medicalDevice }

namespace SupabaseDeviceRepository

/-- `registerFrequentComputer(computer)`: insert into
`frequent_computers`; the primary-key constraint rejects a duplicate id
and the error is re-thrown; on success the input is returned. -/
def registerFrequentComputer (st : SupaState) (computer : FrequentComputer) :
    Except RepoError (FrequentComputer × SupaState) :=
  if st.frequent_computers.any (fun r => r.id = computer.device.id) then
    Except.error RepoError.duplicateKey
  else
    Except.ok (computer,
      { st with frequent_computers := st.frequent_computers ++ [frequentInsertRow computer] })

/-- `getFrequentComputers(criteria)` -/
def getFrequentComputers (st : SupaState) (criteria : DeviceCriteria) :
    Except RepoError (List FrequentComputer) :=
  (applyCriteria FrequentRow.getField frequentCols criteria st.frequent_computers).map
    (List.map FrequentComputer.ofRow)

/-- `checkinFrequentComputer(id, datetime)`: `update({checkin_at})` on
the rows matching the id, then `.select("*").single()` — an error unless
exactly one row matched; the error is re-thrown unchanged (it is the
backend's zero-row error, not `DeviceNotFound`). -/
def checkinFrequentComputer (st : SupaState) (id : String) (datetime : Nat) :
    Except RepoError (FrequentComputer × SupaState) :=
  let updated := st.frequent_computers.map
    (fun r => if r.id = id then { r with checkin_at := some datetime } else r)
  match updated.filter (fun r => r.id = id) with
  | [r] => Except.ok (FrequentComputer.ofRow r, { st with frequent_computers := updated })
  | _ => Except.error RepoError.noSingleRow

/-- `isFrequentComputerRegistered(id)`: `.select("id").eq("id", id)
.maybeSingle()`; errors (more than one row) are re-thrown, otherwise the
truthiness of `data`. -/
def isFrequentComputerRegistered (st : SupaState) (id : String) :
    Except RepoError Bool :=
  match st.frequent_computers.filter (fun r => r.id = id) with
  | [] => Except.ok false
  | [_] => Except.ok true
  | _ => Except.error RepoError.noSingleRow

/-- `checkinComputer(computer)`: inserts a fresh row with
`checkin_at = now` and returns `{...computer, checkinAt: now}`. -/
def checkinComputer (st : SupaState) (now : Nat) (computer : Computer) :
    Except RepoError (Computer × SupaState) :=
  if st.computers.any (fun r => r.id = computer.id) then
    Except.error RepoError.duplicateKey
  else
    Except.ok ({ computer with checkinAt := some now },
      { st with computers := st.computers ++ [computerInsertRow now computer] })

/-- `getComputers(criteria)` -/
def getComputers (st : SupaState) (criteria : DeviceCriteria) :
    Except RepoError (List Computer) :=
  (applyCriteria ComputerRow.getField computerCols criteria st.computers).map
    (List.map Computer.ofRow)

/-- `checkinMedicalDevice(device)` -/
def checkinMedicalDevice (st : SupaState) (now : Nat) (device : MedicalDevice) :
    Except RepoError (MedicalDevice × SupaState) :=
  if st.medical_devices.any (fun r => r.id = device.id) then
    Except.error RepoError.duplicateKey
  else
    Except.ok ({ device with checkinAt := some now },
      { st with medical_devices := st.medical_devices ++ [medicalInsertRow now device] })

/-- `getMedicalDevices(criteria)` -/
def getMedicalDevices (st : SupaState) (criteria : DeviceCriteria) :
    Except RepoError (List MedicalDevice) :=
  (applyCriteria MedicalRow.getField medicalCols criteria st.medical_devices).map
    (List.map MedicalDevice.ofRow)

/-- `getEnteredDevices(criteria)`: `Promise.all` of `getComputers` and
`getMedicalDevices` under the same criteria, each result tagged with its
category and concatenated; if either sub-query fails the whole operation
fails. -/
def getEnteredDevices (st : SupaState) (criteria : DeviceCriteria) :
    Except RepoError (List EnteredDevice) :=
  match getComputers st criteria, getMedicalDevices st criteria with
  | Except.ok cs, Except.ok ms =>
    Except.ok (cs.map enteredOfComputer ++ ms.map enteredOfMedicalDevice)
  | Except.error e, _ => Except.error e
  | _, Except.error e => Except.error e

/-- `checkoutDevice(id, datetime)` (lines 272-294): three unconditional
`update({checkout_at}).eq("id", id)` calls — computers, then medical
devices, then frequent computers.  `f1`, `f2`, `f3` are the backend
faults, if any, of the three calls in order: the first two errors are
re-thrown (aborting the remaining attempts), the third call's error is
never inspected (its update is then not applied by the backend). -/
def checkoutDevice (f1 f2 f3 : Option RepoError) (st : SupaState)
    (id : String) (datetime : Nat) : Except RepoError SupaState :=
  match f1 with
  | some e => Except.error e
  | none =>
    let comps := st.computers.map
      (fun r => if r.id = id then { r with checkout_at := some datetime } else r)
    match f2 with
    | some e => Except.error e
    | none =>
      let meds := st.medical_devices.map
        (fun r => if r.id = id then { r with checkout_at := some datetime } else r)
      let freqs :=
        match f3 with
        | some _ => st.frequent_computers
        | none => st.frequent_computers.map
            (fun r => if r.id = id then { r with checkout_at := some datetime } else r)
      Except.ok { computers := comps, medical_devices := meds, frequent_computers := freqs }

/-- `isDeviceEntered(id)`: existence probes — `.select("id").eq("id",
id).maybeSingle()` against `computers`, short-circuiting to
`medical_devices`; the error channel is never read (`const { data: comp }`),
so `data` is `null` unless exactly one row matched.  Frequent computers
are not checked, and checkout state is not consulted. -/
def isDeviceEntered (st : SupaState) (id : String) : Bool :=
  match maybeSingleData (st.computers.filter (fun r => r.id = id)) with
  | some _ => true
  | none => (maybeSingleData (st.medical_devices.filter (fun r => r.id = id))).isSome

end SupabaseDeviceRepository

/-! ## Concrete fixtures used by witnesses and counterexamples -/

/-- A sample owner. -/
def ownerA : Owner := { id := "o1", name := "Ana" }

/-- A sample computer, currently checked in. -/
def compA : Computer :=
  { id := "a", brand := "Dell", model := "XPS", owner := ownerA,
    photoURL := "http://e/p.png", updatedAt := 1,
    checkinAt := some 1, checkoutAt := none }

/-- A sample computer whose `checkinAt` is absent. -/
def compNoCheckin : Computer := { compA with id := "b", checkinAt := none }

/-- A one-row `computers` table holding `compA`'s insert row (id `"a"`). -/
def supaA : SupaState :=
  { computers := [computerInsertRow 1 compA], medical_devices := [],
    frequent_computers := [] }

/-- A sample frequent computer (id `"f"`), not yet checked in. -/
def freqF1 : FrequentComputer :=
  { device := { compA with id := "f", checkinAt := none },
    checkinURL := "http://x/checkin", checkoutURL := "http://x/checkout" }

/-- A second frequent computer with the same device id but different URLs. -/
def freqF2 : FrequentComputer := { freqF1 with checkinURL := "http://y/checkin" }

/-- In-memory store with 15 computers (ids `"0"` to `"14"`). -/
def mem15 : MemState :=
  { MemState.empty with
    computers := (List.range 15).map (fun i => (toString i, { compA with id := toString i })) }

/-- Remote store with 15 computer rows (ids `"0"` to `"14"`). -/
def supa15 : SupaState :=
  { SupaState.empty with
    computers :=
      (List.range 15).map (fun i => computerInsertRow 1 { compA with id := toString i }) }

/-- In-memory store after registering `freqF1` and checking it in: the
entered-devices index holds one frequent-computer entry. -/
def memFreqEntered : MemState :=
  match InMemoryDeviceRepository.checkinFrequentComputer
      (InMemoryDeviceRepository.registerFrequentComputer MemState.empty freqF1).2 7 "f" 7 with
  | Except.ok (_, s) => s
  | Except.error _ => MemState.empty

/-- In-memory store with `freqF1` registered (id `"f"`). -/
def memF1 : MemState :=
  (InMemoryDeviceRepository.registerFrequentComputer MemState.empty freqF1).2

/-- Remote store with `freqF1`'s row registered (id `"f"`). -/
def supaF1 : SupaState :=
  { SupaState.empty with frequent_computers := [frequentInsertRow freqF1] }

/-- In-memory store after checking in `compA` (id `"a"`). -/
def memCompEntered : MemState :=
  (InMemoryDeviceRepository.checkinComputer MemState.empty 1 compA).2

/-- In-memory store after checking in `compA` and checking it out again. -/
def memAfterCheckout : MemState :=
  match InMemoryDeviceRepository.checkoutDevice memCompEntered "a" 5 with
  | Except.ok s => s
  | Except.error _ => MemState.empty

/-! ## Lemmas about the `Map` model -/

namespace AList

variable {α : Type}

theorem has_eq_isSome_get (m : List (String × α)) (k : String) :
    has m k = (get m k).isSome := by
  induction m with
  | nil => simp [has, get]
  | cons p t ih =>
    by_cases hp : p.1 = k
    · simp [has, get, List.find?_cons, hp]
    · simpa [has, get, List.find?_cons, hp] using ih

theorem get_eq_none_of_has (m : List (String × α)) (k : String)
    (h : has m k = false) : get m k = none := by
  rw [has_eq_isSome_get] at h
  cases hg : get m k
  · rfl
  · rw [hg] at h; simp at h

theorem get_map_replace (m : List (String × α)) (k : String) (v : α)
    (h : has m k = true) :
    get (m.map (fun p => if p.1 = k then (k, v) else p)) k = some v := by
  induction m with
  | nil => simp [has] at h
  | cons p t ih =>
    by_cases hp : p.1 = k
    · simp [get, List.find?_cons, hp]
    · have ht : has t k = true := by
        simpa [has, hp] using h
      simpa [get, List.find?_cons, hp] using ih ht

theorem get_append_single (m : List (String × α)) (k : String) (v : α)
    (h : has m k = false) :
    get (m ++ [(k, v)]) k = some v := by
  induction m with
  | nil => simp [get, List.find?_cons]
  | cons p t ih =>
    have hp : ¬ p.1 = k := by
      intro hk
      simp [has, hk] at h
    have ht : has t k = false := by
      simpa [has, hp] using h
    simpa [get, List.find?_cons, hp] using ih ht

theorem get_set_self (m : List (String × α)) (k : String) (v : α) :
    get (set m k v) k = some v := by
  unfold set
  by_cases hh : has m k
  · simpa [hh] using get_map_replace m k v hh
  · have hh' : has m k = false := by simpa using hh
    simpa [hh'] using get_append_single m k v hh'

theorem has_set_self (m : List (String × α)) (k : String) (v : α) :
    has (set m k v) k = true := by
  rw [has_eq_isSome_get, get_set_self]
  rfl

theorem get_del_self (m : List (String × α)) (k : String) :
    get (del m k) k = none := by
  induction m with
  | nil => simp [del, get]
  | cons p t ih =>
    by_cases hp : p.1 = k
    · have hstep : del (p :: t) k = del t k := by
        simp [del, List.filter_cons, hp]
      rw [hstep]
      exact ih
    · rw [show del (p :: t) k = p :: del t k by simp [del, List.filter_cons, hp]]
      have hd : (decide (p.1 = k)) = false := by simpa using hp
      simp only [get, List.find?_cons, hd]
      exact ih

theorem has_del_self (m : List (String × α)) (k : String) :
    has (del m k) k = false := by
  rw [has_eq_isSome_get, get_del_self]
  rfl

theorem mem_values_of_get (m : List (String × α)) (k : String) (v : α)
    (h : get m k = some v) : v ∈ values m := by
  induction m with
  | nil => simp [get] at h
  | cons p t ih =>
    by_cases hp : p.1 = k
    · have : p.2 = v := by
        simpa [get, List.find?_cons, hp] using h
      simp [values, this.symm]
    · have ht := ih (by simpa [get, List.find?_cons, hp] using h)
      simp [values] at ht ⊢
      exact Or.inr ht

end AList

/-- Filtering commutes with a map that preserves the predicate. -/
theorem filter_map_comm {ρ : Type} (g : ρ → ρ) (p : ρ → Bool)
    (hp : ∀ r, p (g r) = p r) (l : List ρ) :
    (l.map g).filter p = (l.filter p).map g := by
  induction l with
  | nil => rfl
  | cons a t ih =>
    by_cases ha : p a = true
    · simp [List.filter_cons, hp, ha, ih]
    · have ha' : p a = false := by simpa using ha
      simp [List.filter_cons, hp, ha', ih]

/-- `maybeSingleData` sees the same row count through a row-rewriting map. -/
theorem maybeSingleData_map_isSome {ρ : Type} (g : ρ → ρ) (l : List ρ) :
    (maybeSingleData (l.map g)).isSome = (maybeSingleData l).isSome := by
  cases l with
  | nil => rfl
  | cons a t => cases t <;> rfl

/-- A filter over a list none of whose elements satisfy the predicate is
empty. -/
theorem filter_eq_nil_of_all_not {ρ : Type} (p : ρ → Bool) (l : List ρ)
    (h : ∀ r ∈ l, p r = false) : l.filter p = [] := by
  induction l with
  | nil => rfl
  | cons a t ih =>
    have ha := h a (List.mem_cons_self a t)
    have ht := ih (fun r hr => h r (List.mem_cons_of_mem a hr))
    simp [List.filter_cons, ha, ht]

/-! ## Claim theorems -/

/-- C1: the claim says that for a device id of the computers or
medical-devices category, `checkoutDevice(id, t)` followed by
`isDeviceEntered(id)` returns `false` in both implementations.  The
Supabase implementation violates this (against its own doc comment,
"false si ya salió"): with the `computers` table holding the row for id
`"a"`, `checkoutDevice("a", 5)` succeeds, yet `isDeviceEntered("a")`
still returns `true`, because the existence probe never consults
checkout state and checkout does not remove the row. -/
theorem c1_supabase_entered_after_checkout :
    (SupabaseDeviceRepository.checkoutDevice none none none supaA "a" 5).map
      (fun st => SupabaseDeviceRepository.isDeviceEntered st "a") = Except.ok true := by
  decide

/-- C2 counterexample: the claim says `checkoutDevice(id, time)`
unconditionally attempts all three checkout stamps and succeeds whenever
the first two attempts do not error.  The in-memory implementation
instead throws `DeviceNotFound` for an id absent from its entered-devices
index, with no update attempted at all. -/
theorem c2_inmemory_checkout_counterexample :
    InMemoryDeviceRepository.checkoutDevice MemState.empty "x" 0 =
      Except.error RepoError.deviceNotFound := by
  decide

/-- C2 (amended): in the Supabase implementation `checkoutDevice`
attempts the checkout stamp against computers, then medical devices,
then frequent computers, unconditionally on every table regardless of
which holds the id; an error from the first or second attempt is fatal
and aborts the remaining attempts, while an error in the third is
swallowed and the operation still succeeds.  The in-memory
implementation instead requires the id to be in its entered-devices
index and throws `DeviceNotFound` otherwise. -/
theorem c2_checkout_error_flow_amended :
    (∀ (e : RepoError) (f2 f3 : Option RepoError) (st : SupaState) (id : String) (t : Nat),
        SupabaseDeviceRepository.checkoutDevice (some e) f2 f3 st id t = Except.error e) ∧
    (∀ (e : RepoError) (f3 : Option RepoError) (st : SupaState) (id : String) (t : Nat),
        SupabaseDeviceRepository.checkoutDevice none (some e) f3 st id t = Except.error e) ∧
    (∀ (f3 : Option RepoError) (st : SupaState) (id : String) (t : Nat),
        SupabaseDeviceRepository.checkoutDevice none none f3 st id t =
          Except.ok
            { computers := st.computers.map
                (fun r => if r.id = id then { r with checkout_at := some t } else r),
              medical_devices := st.medical_devices.map
                (fun r => if r.id = id then { r with checkout_at := some t } else r),
              frequent_computers :=
                match f3 with
                | some _ => st.frequent_computers
                | none => st.frequent_computers.map
                    (fun r => if r.id = id then { r with checkout_at := some t } else r) }) ∧
    (∀ (st : MemState) (id : String) (t : Nat),
        AList.has st.enteredDevices id = false →
          InMemoryDeviceRepository.checkoutDevice st id t =
            Except.error RepoError.deviceNotFound) := by
  refine ⟨?_, ?_, ?_, ?_⟩
  · intro e f2 f3 st id t
    rfl
  · intro e f3 st id t
    rfl
  · intro f3 st id t
    cases f3 <;> rfl
  · intro st id t h
    have hg := AList.get_eq_none_of_has st.enteredDevices id h
    simp [InMemoryDeviceRepository.checkoutDevice, hg]

/-- C2 witness: the error flow evaluated at concrete inputs. -/
theorem c2_checkout_error_flow_witness :
    InMemoryDeviceRepository.checkoutDevice MemState.empty "y" 3 =
        Except.error RepoError.deviceNotFound ∧
    SupabaseDeviceRepository.checkoutDevice (some RepoError.badColumn) none none
        SupaState.empty "y" 3 = Except.error RepoError.badColumn :=
  ⟨c2_checkout_error_flow_amended.2.2.2 MemState.empty "y" 3 (by decide),
   c2_checkout_error_flow_amended.1 RepoError.badColumn none none SupaState.empty "y" 3⟩

/-- C3 counterexample: the claim says `getEnteredDevices(criteria)`
equals the tagged concatenation of `getComputers` and
`getMedicalDevices` and never contains a frequent computer, in both
implementations.  In the in-memory implementation, after registering and
checking in a frequent computer, `getEnteredDevices({})` holds exactly
one frequent-computer-tagged record while the tagged concatenation is
empty. -/
theorem c3_inmemory_entered_counterexample :
    (InMemoryDeviceRepository.getEnteredDevices memFreqEntered {}).map (fun e => e.type) =
        [DeviceType.frequentComputer] ∧
    (InMemoryDeviceRepository.getComputers memFreqEntered {}).map enteredOfComputer ++
        (InMemoryDeviceRepository.getMedicalDevices memFreqEntered {}).map
          enteredOfMedicalDevice = [] := by
  decide

/-- C3 (amended): in the Supabase implementation, `getEnteredDevices`
equals the concatenation of `getComputers` tagged "computer" and
`getMedicalDevices` tagged "medical-device" under the same criteria, and
no frequent computer ever appears in its result.  The in-memory
implementation does not share this shape: it returns its
entered-devices index, which can contain frequent-computer entries. -/
theorem c3_supabase_entered_fanout :
    (∀ (st : SupaState) (c : DeviceCriteria) (cs : List Computer) (ms : List MedicalDevice),
        SupabaseDeviceRepository.getComputers st c = Except.ok cs →
        SupabaseDeviceRepository.getMedicalDevices st c = Except.ok ms →
        SupabaseDeviceRepository.getEnteredDevices st c =
          Except.ok (cs.map enteredOfComputer ++ ms.map enteredOfMedicalDevice)) ∧
    (∀ (st : SupaState) (c : DeviceCriteria) (l : List EnteredDevice),
        SupabaseDeviceRepository.getEnteredDevices st c = Except.ok l →
        ∀ e ∈ l, e.type ≠ DeviceType.frequentComputer) := by
  constructor
  · intro st c cs ms hc hm
    unfold SupabaseDeviceRepository.getEnteredDevices
    rw [hc, hm]
  · intro st c l h e he
    unfold SupabaseDeviceRepository.getEnteredDevices at h
    cases hc : SupabaseDeviceRepository.getComputers st c with
    | error e1 => rw [hc] at h; exact absurd h (by simp)
    | ok cs =>
      cases hm : SupabaseDeviceRepository.getMedicalDevices st c with
      | error e2 => rw [hc, hm] at h; exact absurd h (by simp)
      | ok ms =>
        rw [hc, hm] at h
        have hl : cs.map enteredOfComputer ++ ms.map enteredOfMedicalDevice = l :=
          Except.ok.inj h
        rw [← hl] at he
        rcases List.mem_append.1 he with hcomp | hmed
        · rcases List.mem_map.1 hcomp with ⟨x, _, hx⟩
          rw [← hx]
          simp [enteredOfComputer]
        · rcases List.mem_map.1 hmed with ⟨x, _, hx⟩
          rw [← hx]
          simp [enteredOfMedicalDevice]

/-- C3 witness: the fan-out shape evaluated on a store with one
computer row. -/
theorem c3_supabase_entered_fanout_witness :
    SupabaseDeviceRepository.getEnteredDevices supaA {} =
      Except.ok ([Computer.ofRow (computerInsertRow 1 compA)].map enteredOfComputer ++
        ([] : List MedicalDevice).map enteredOfMedicalDevice) :=
  c3_supabase_entered_fanout.1 supaA {} [Computer.ofRow (computerInsertRow 1 compA)] []
    (by decide) (by decide)

/-- C4 counterexample: the claim says `checkinComputer(c)` stamps the
current time as `checkinAt` on both the stored and the returned record
in both implementations.  The in-memory implementation stores and
returns the input unchanged: for an input with no `checkinAt`, the
returned record and the stored record still have no `checkinAt`. -/
theorem c4_inmemory_checkin_counterexample :
    ((InMemoryDeviceRepository.checkinComputer MemState.empty 5 compNoCheckin).1).checkinAt =
        none ∧
    AList.get ((InMemoryDeviceRepository.checkinComputer MemState.empty 5
        compNoCheckin).2).computers "b" = some compNoCheckin := by
  decide

/-- C4 (amended): in the Supabase implementation, when the insert
succeeds (fresh id), `checkinComputer` stores a row whose `checkin_at`
is the current time and returns the input with `checkinAt` overridden to
the current time.  The in-memory implementation stores and returns the
input computer unchanged, stamping a fresh time only on its
entered-devices index entry. -/
theorem c4_checkin_stamps_amended :
    (∀ (st : SupaState) (now : Nat) (c : Computer),
        st.computers.any (fun r => r.id = c.id) = false →
        SupabaseDeviceRepository.checkinComputer st now c =
          Except.ok ({ c with checkinAt := some now },
            { st with computers := st.computers ++ [computerInsertRow now c] }) ∧
        (computerInsertRow now c).checkin_at = some now) ∧
    (∀ (st : MemState) (now : Nat) (c : Computer),
        (InMemoryDeviceRepository.checkinComputer st now c).1 = c ∧
        AList.get ((InMemoryDeviceRepository.checkinComputer st now c).2).computers c.id =
          some c ∧
        AList.get ((InMemoryDeviceRepository.checkinComputer st now c).2).enteredDevices c.id =
          some (InMemoryDeviceRepository.mapDeviceFromComputer now c) ∧
        (InMemoryDeviceRepository.mapDeviceFromComputer now c).checkinAt = some now) := by
  constructor
  · intro st now c h
    constructor
    · simp [SupabaseDeviceRepository.checkinComputer, h]
    · rfl
  · intro st now c
    refine ⟨rfl, ?_, ?_, rfl⟩
    · exact AList.get_set_self st.computers c.id c
    · exact AList.get_set_self st.enteredDevices c.id
        (InMemoryDeviceRepository.mapDeviceFromComputer now c)

/-- C4 witness: both halves evaluated at concrete inputs. -/
theorem c4_checkin_stamps_witness :
    SupabaseDeviceRepository.checkinComputer SupaState.empty 5 compA =
        Except.ok ({ compA with checkinAt := some 5 },
          { SupaState.empty with
            computers := SupaState.empty.computers ++ [computerInsertRow 5 compA] }) ∧
    (InMemoryDeviceRepository.checkinComputer MemState.empty 5 compA).1 = compA :=
  ⟨(c4_checkin_stamps_amended.1 SupaState.empty 5 compA (by decide)).1,
   (c4_checkin_stamps_amended.2 MemState.empty 5 compA).1⟩

/-- C5 counterexample: the claim says `checkinFrequentComputer(id, t)`
on an unregistered id fails with `DeviceNotFound`.  In the Supabase
implementation the failure is the backend's `.single()` zero-row error,
re-thrown unchanged — a different error from `DeviceNotFound`. -/
theorem c5_supabase_checkin_counterexample :
    SupabaseDeviceRepository.checkinFrequentComputer SupaState.empty "x" 0 =
        Except.error RepoError.noSingleRow ∧
    RepoError.noSingleRow ≠ RepoError.deviceNotFound := by
  decide

/-- C5 (amended): in the in-memory implementation,
`checkinFrequentComputer(id, t)` on an unregistered id fails with
`DeviceNotFound` and changes no state, and on a registered id succeeds
with the returned record's `device.checkinAt` equal to `t`.  In the
Supabase implementation the unregistered case fails with the backend's
zero-row error (not `DeviceNotFound`), while any successful call also
returns a record whose `device.checkinAt` equals `t`. -/
theorem c5_checkin_frequent_amended :
    (∀ (st : MemState) (now : Nat) (id : String) (t : Nat),
        AList.get st.frequentComputer id = none →
        InMemoryDeviceRepository.checkinFrequentComputer st now id t =
          Except.error RepoError.deviceNotFound) ∧
    (∀ (st : MemState) (now : Nat) (id : String) (t : Nat) (fc : FrequentComputer),
        AList.get st.frequentComputer id = some fc →
        ∃ (fc' : FrequentComputer) (st' : MemState),
          InMemoryDeviceRepository.checkinFrequentComputer st now id t =
            Except.ok (fc', st') ∧ fc'.device.checkinAt = some t) ∧
    (∀ (st : SupaState) (id : String) (t : Nat),
        st.frequent_computers.all (fun r => ¬ r.id = id) = true →
        SupabaseDeviceRepository.checkinFrequentComputer st id t =
          Except.error RepoError.noSingleRow) ∧
    (∀ (st : SupaState) (id : String) (t : Nat) (fc' : FrequentComputer) (st' : SupaState),
        SupabaseDeviceRepository.checkinFrequentComputer st id t = Except.ok (fc', st') →
        fc'.device.checkinAt = some t) := by
  refine ⟨?_, ?_, ?_, ?_⟩
  · intro st now id t h
    simp [InMemoryDeviceRepository.checkinFrequentComputer, h]
  · intro st now id t fc h
    refine ⟨{ fc with device := { fc.device with checkinAt := some t } },
      { st with
        frequentComputer := AList.set st.frequentComputer id
          { fc with device := { fc.device with checkinAt := some t } },
        enteredDevices := AList.set st.enteredDevices id
          (InMemoryDeviceRepository.mapDeviceFrequentComputer now
            { fc with device := { fc.device with checkinAt := some t } }) },
      ?_, rfl⟩
    simp [InMemoryDeviceRepository.checkinFrequentComputer, h]
  · intro st id t hall
    have hall' : ∀ r ∈ st.frequent_computers, r.id ≠ id := by
      intro r hr
      have := List.all_eq_true.1 hall r hr
      simpa using this
    have hfil : (st.frequent_computers.map
        (fun r => if r.id = id then { r with checkin_at := some t } else r)).filter
        (fun r => r.id = id) = [] := by
      apply filter_eq_nil_of_all_not
      intro r hr
      rcases List.mem_map.1 hr with ⟨r0, hr0, hstamp⟩
      have h0 : r0.id ≠ id := hall' r0 hr0
      rw [← hstamp]
      simp [h0]
    simp [SupabaseDeviceRepository.checkinFrequentComputer, hfil]
  · intro st id t fc' st' h
    simp only [SupabaseDeviceRepository.checkinFrequentComputer] at h
    cases hf : (st.frequent_computers.map
        (fun r => if r.id = id then { r with checkin_at := some t } else r)).filter
        (fun r => r.id = id) with
    | nil => rw [hf] at h; exact absurd h (by simp)
    | cons r rest =>
      cases rest with
      | cons r2 rest2 => rw [hf] at h; exact absurd h (by simp)
      | nil =>
        rw [hf] at h
        have hr : r ∈ (st.frequent_computers.map
            (fun r => if r.id = id then { r with checkin_at := some t } else r)).filter
            (fun r => r.id = id) := by
          rw [hf]; exact List.mem_cons_self r []
        have hr' := List.mem_filter.1 hr
        have hrid : r.id = id := by simpa using hr'.2
        rcases List.mem_map.1 hr'.1 with ⟨r0, _, hstamp⟩
        have hchk : r.checkin_at = some t := by
          by_cases h0 : r0.id = id
          · rw [← hstamp]
            simp [h0]
          · rw [← hstamp] at hrid
            simp [h0] at hrid
        have hfc : fc' = FrequentComputer.ofRow r := by
          have := Except.ok.inj h
          exact (congrArg Prod.fst this).symm
        rw [hfc]
        simpa [FrequentComputer.ofRow] using hchk

/-- C5 witness: all four behaviours evaluated at concrete inputs. -/
theorem c5_checkin_frequent_witness :
    InMemoryDeviceRepository.checkinFrequentComputer MemState.empty 3 "z" 4 =
        Except.error RepoError.deviceNotFound ∧
    (∃ (fc' : FrequentComputer) (st' : MemState),
        InMemoryDeviceRepository.checkinFrequentComputer memF1 3 "f" 4 =
          Except.ok (fc', st') ∧ fc'.device.checkinAt = some 4) ∧
    SupabaseDeviceRepository.checkinFrequentComputer SupaState.empty "z" 4 =
        Except.error RepoError.noSingleRow :=
  ⟨c5_checkin_frequent_amended.1 MemState.empty 3 "z" 4 (by decide),
   c5_checkin_frequent_amended.2.1 memF1 3 "f" 4 freqF1 (by decide),
   c5_checkin_frequent_amended.2.2.1 SupaState.empty "z" 4 (by decide)⟩

/-- C6 counterexample: the claim says pagination is honoured in both
implementations, so with 15 stored computers
`getComputers({limit:10, offset:10})` returns 5 records.  The in-memory
implementation ignores the criteria and returns all 15. -/
theorem c6_inmemory_pagination_counterexample :
    (InMemoryDeviceRepository.getComputers mem15
      { limit := some 10, offset := some 10 }).length = 15 := by
  decide

/-- C6 (amended): in the Supabase implementation, `getComputers` with
limit `n` and offset `k` returns the records at positions `k` through
`k+n-1`, a missing limit with an offset defaults to a page size of 10,
and with 15 stored rows `{limit:10, offset:10}` yields
`min 10 (15-10) = 5` records.  The in-memory implementation ignores the
criteria entirely. -/
theorem c6_pagination_amended :
    (∀ (st : SupaState) (n k : Nat),
        SupabaseDeviceRepository.getComputers st { limit := some n, offset := some k } =
          Except.ok (((st.computers.drop k).take n).map Computer.ofRow)) ∧
    (∀ (st : SupaState) (n k : Nat) (l : List Computer),
        SupabaseDeviceRepository.getComputers st { limit := some n, offset := some k } =
          Except.ok l →
        l.length = min n (st.computers.length - k)) ∧
    (∀ (st : SupaState) (k : Nat),
        SupabaseDeviceRepository.getComputers st { limit := none, offset := some k } =
          Except.ok (((st.computers.drop k).take 10).map Computer.ofRow)) ∧
    (∀ (st : MemState) (c1 c2 : DeviceCriteria),
        InMemoryDeviceRepository.getComputers st c1 =
          InMemoryDeviceRepository.getComputers st c2) := by
  refine ⟨?_, ?_, ?_, ?_⟩
  · intro st n k
    rfl
  · intro st n k l h
    have h0 : SupabaseDeviceRepository.getComputers st
        { limit := some n, offset := some k } =
        Except.ok (((st.computers.drop k).take n).map Computer.ofRow) := rfl
    rw [h0] at h
    have hl := Except.ok.inj h
    rw [← hl]
    simp [List.length_take, List.length_drop]
  · intro st k
    rfl
  · intro st c1 c2
    rfl

/-- C6 witness: the pagination window on a store with 15 computer rows
contains exactly `min 10 (15 - 10) = 5` records. -/
theorem c6_pagination_witness :
    (((supa15.computers.drop 10).take 10).map Computer.ofRow).length =
        min 10 (supa15.computers.length - 10) ∧
    min 10 (supa15.computers.length - 10) = 5 :=
  ⟨c6_pagination_amended.2.1 supa15 10 10
    (((supa15.computers.drop 10).take 10).map Computer.ofRow)
    (c6_pagination_amended.1 supa15 10 10), by decide⟩

/-- C7: registering a frequent computer and re-fetching through
`getFrequentComputers` with an exact-match filter on the device id
returns a record whose `checkinURL` and `checkoutURL` compare equal to
the originals, in both implementations (the Supabase store serializes
the URLs into the row and parses them back; the in-memory store returns
the registered object itself). -/
theorem c7_frequent_roundtrip :
    (∀ (st : SupaState) (f : FrequentComputer) (res : FrequentComputer × SupaState),
        SupabaseDeviceRepository.registerFrequentComputer st f = Except.ok res →
        SupabaseDeviceRepository.getFrequentComputers res.2
            { filterBy := some { field := "id", value := ColVal.s f.device.id } } =
          Except.ok [FrequentComputer.ofRow (frequentInsertRow f)] ∧
        (FrequentComputer.ofRow (frequentInsertRow f)).checkinURL = f.checkinURL ∧
        (FrequentComputer.ofRow (frequentInsertRow f)).checkoutURL = f.checkoutURL) ∧
    (∀ (st : MemState) (f : FrequentComputer) (c : DeviceCriteria),
        ∃ g ∈ InMemoryDeviceRepository.getFrequentComputers
            (InMemoryDeviceRepository.registerFrequentComputer st f).2 c,
          g.checkinURL = f.checkinURL ∧ g.checkoutURL = f.checkoutURL) := by
  constructor
  · intro st f res hreg
    have hfresh : st.frequent_computers.any (fun r => r.id = f.device.id) = false := by
      by_cases ha : st.frequent_computers.any (fun r => r.id = f.device.id) = true
      · rw [SupabaseDeviceRepository.registerFrequentComputer, if_pos ha] at hreg
        exact absurd hreg (by simp)
      · simpa using ha
    have hres : res =
        (f, { st with
          frequent_computers := st.frequent_computers ++ [frequentInsertRow f] }) := by
      rw [SupabaseDeviceRepository.registerFrequentComputer, if_neg (by simp [hfresh])] at hreg
      exact (Except.ok.inj hreg).symm
    have holdnil : st.frequent_computers.filter
        (fun r => FrequentRow.getField r "id" = some (ColVal.s f.device.id)) = [] := by
      apply filter_eq_nil_of_all_not
      intro r hr
      have hne : r.id ≠ f.device.id := by
        intro he
        have : st.frequent_computers.any (fun r => r.id = f.device.id) = true :=
          List.any_eq_true.2 ⟨r, hr, by simp [he]⟩
        rw [this] at hfresh
        cases hfresh
      simp [FrequentRow.getField, hne]
    constructor
    · rw [hres]
      simp only [SupabaseDeviceRepository.getFrequentComputers, applyCriteria]
      have hsing : List.filter
          (fun r => decide (FrequentRow.getField r "id" = some (ColVal.s f.device.id)))
          [frequentInsertRow f] = [frequentInsertRow f] := by
        simp [FrequentRow.getField, frequentInsertRow]
      rw [List.filter_append, holdnil, hsing]
      rfl
    · exact ⟨rfl, rfl⟩
  · intro st f c
    refine ⟨f, ?_, rfl, rfl⟩
    exact AList.mem_values_of_get _ f.device.id f
      (AList.get_set_self st.frequentComputer f.device.id f)

/-- C7 witness: the round trip evaluated from the empty store with
`freqF1` (`checkinURL = "http://x/checkin"`,
`checkoutURL = "http://x/checkout"`). -/
theorem c7_frequent_roundtrip_witness :
    SupabaseDeviceRepository.getFrequentComputers supaF1
        { filterBy := some { field := "id", value := ColVal.s freqF1.device.id } } =
      Except.ok [FrequentComputer.ofRow (frequentInsertRow freqF1)] ∧
    (FrequentComputer.ofRow (frequentInsertRow freqF1)).checkinURL = freqF1.checkinURL ∧
    (FrequentComputer.ofRow (frequentInsertRow freqF1)).checkoutURL = freqF1.checkoutURL :=
  c7_frequent_roundtrip.1 SupaState.empty freqF1 (freqF1, supaF1) (by decide)

/-- C8 counterexample: the claim says registering an already-registered
frequent-computer id fails with `DuplicateDevice` and leaves the
existing record unchanged in every implementation.  The in-memory
implementation silently succeeds and overwrites: re-registering id `"f"`
with different URLs returns the new record and replaces the stored
one. -/
theorem c8_inmemory_duplicate_counterexample :
    (InMemoryDeviceRepository.registerFrequentComputer memF1 freqF2).1 = freqF2 ∧
    AList.get
        (InMemoryDeviceRepository.registerFrequentComputer memF1 freqF2).2.frequentComputer
        "f" = some freqF2 ∧
    freqF2 ≠ freqF1 := by
  decide

/-- C8 (amended): in the Supabase implementation, registering a
frequent computer whose device id already has a row fails with the
backend's unique-key violation (re-thrown unchanged) and no new state is
produced; the in-memory implementation never fails (its return is a
plain pair, not a fallible result): it stores and returns the new
record, and a distinct record previously stored under the same id is
replaced, not preserved. -/
theorem c8_duplicate_registration_amended :
    (∀ (st : SupaState) (f : FrequentComputer),
        st.frequent_computers.any (fun r => r.id = f.device.id) = true →
        SupabaseDeviceRepository.registerFrequentComputer st f =
          Except.error RepoError.duplicateKey) ∧
    (∀ (st : MemState) (f : FrequentComputer),
        (InMemoryDeviceRepository.registerFrequentComputer st f).1 = f ∧
        AList.get
            (InMemoryDeviceRepository.registerFrequentComputer st f).2.frequentComputer
            f.device.id = some f) ∧
    (∀ (st : MemState) (f g : FrequentComputer),
        AList.get st.frequentComputer f.device.id = some g → g ≠ f →
        AList.get
            (InMemoryDeviceRepository.registerFrequentComputer st f).2.frequentComputer
            f.device.id ≠ some g) := by
  refine ⟨?_, ?_, ?_⟩
  · intro st f h
    rw [SupabaseDeviceRepository.registerFrequentComputer, if_pos h]
  · intro st f
    exact ⟨rfl, AList.get_set_self st.frequentComputer f.device.id f⟩
  · intro st f g _ hne
    have hself : AList.get
        (InMemoryDeviceRepository.registerFrequentComputer st f).2.frequentComputer
        f.device.id = some f := AList.get_set_self st.frequentComputer f.device.id f
    rw [hself]
    intro hc
    exact hne (Option.some.inj hc).symm

/-- C8 witness: a duplicate insert against the Supabase store already
holding `freqF1`'s row fails with the unique-key violation, while
re-registering the same id in the in-memory store replaces the old
record. -/
theorem c8_duplicate_registration_witness :
    SupabaseDeviceRepository.registerFrequentComputer supaF1 freqF2 =
        Except.error RepoError.duplicateKey ∧
    AList.get
        (InMemoryDeviceRepository.registerFrequentComputer memF1 freqF2).2.frequentComputer
        freqF2.device.id ≠ some freqF1 :=
  ⟨c8_duplicate_registration_amended.1 supaF1 freqF2 (by decide),
   c8_duplicate_registration_amended.2.2 memF1 freqF2 freqF1 (by decide) (by decide)⟩

/-- C9: in the in-memory implementation, after a successful
`checkoutDevice(id, t)`, a second `checkoutDevice(id, t')` throws
`DeviceNotFound` (the id was deleted from the entered-devices index, so
the throw happens before any mutation), `isDeviceEntered(id)` is false,
and the device record still exists in its category map. -/
theorem c9_checkout_at_most_once :
    ∀ (st : MemState) (id : String) (t t' : Nat) (st' : MemState),
      InMemoryDeviceRepository.checkoutDevice st id t = Except.ok st' →
      InMemoryDeviceRepository.checkoutDevice st' id t' =
          Except.error RepoError.deviceNotFound ∧
      InMemoryDeviceRepository.isDeviceEntered st' id = false ∧
      ∀ e, AList.get st.enteredDevices id = some e →
        (e.type = DeviceType.computer → (AList.get st'.computers id).isSome = true) ∧
        (e.type = DeviceType.medicalDevice →
          (AList.get st'.medicalDevices id).isSome = true) ∧
        (e.type = DeviceType.frequentComputer →
          (AList.get st'.frequentComputer id).isSome = true) := by
  intro st id t t' st' h
  cases hg : AList.get st.enteredDevices id with
  | none =>
    simp [InMemoryDeviceRepository.checkoutDevice, hg] at h
  | some e =>
    cases hty : e.type with
    | computer =>
      cases hc : AList.get st.computers id with
      | none => simp [InMemoryDeviceRepository.checkoutDevice, hg, hty, hc] at h
      | some c =>
        simp only [InMemoryDeviceRepository.checkoutDevice, hg, hty, hc] at h
        have hst := Except.ok.inj h
        subst hst
        refine ⟨?_, ?_, ?_⟩
        · simp [InMemoryDeviceRepository.checkoutDevice, AList.get_del_self]
        · simp [InMemoryDeviceRepository.isDeviceEntered, AList.has_del_self]
        · intro e2 hg2
          cases Option.some.inj hg2
          refine ⟨fun _ => ?_, fun hmed => ?_, fun hfreq => ?_⟩
          · simp [AList.get_set_self]
          · rw [hty] at hmed; exact DeviceType.noConfusion hmed
          · rw [hty] at hfreq; exact DeviceType.noConfusion hfreq
    | medicalDevice =>
      cases hc : AList.get st.medicalDevices id with
      | none => simp [InMemoryDeviceRepository.checkoutDevice, hg, hty, hc] at h
      | some d =>
        simp only [InMemoryDeviceRepository.checkoutDevice, hg, hty, hc] at h
        have hst := Except.ok.inj h
        subst hst
        refine ⟨?_, ?_, ?_⟩
        · simp [InMemoryDeviceRepository.checkoutDevice, AList.get_del_self]
        · simp [InMemoryDeviceRepository.isDeviceEntered, AList.has_del_self]
        · intro e2 hg2
          cases Option.some.inj hg2
          refine ⟨fun hcomp => ?_, fun _ => ?_, fun hfreq => ?_⟩
          · rw [hty] at hcomp; exact DeviceType.noConfusion hcomp
          · simp [AList.get_set_self]
          · rw [hty] at hfreq; exact DeviceType.noConfusion hfreq
    | frequentComputer =>
      cases hc : AList.get st.frequentComputer id with
      | none => simp [InMemoryDeviceRepository.checkoutDevice, hg, hty, hc] at h
      | some fc =>
        simp only [InMemoryDeviceRepository.checkoutDevice, hg, hty, hc] at h
        have hst := Except.ok.inj h
        subst hst
        refine ⟨?_, ?_, ?_⟩
        · simp [InMemoryDeviceRepository.checkoutDevice, AList.get_del_self]
        · simp [InMemoryDeviceRepository.isDeviceEntered, AList.has_del_self]
        · intro e2 hg2
          cases Option.some.inj hg2
          refine ⟨fun hcomp => ?_, fun hmed => ?_, fun _ => ?_⟩
          · rw [hty] at hcomp; exact DeviceType.noConfusion hcomp
          · rw [hty] at hmed; exact DeviceType.noConfusion hmed
          · simp [AList.get_set_self]

/-- C9 witness: check in `compA`, check it out at time 5, then a second
checkout at time 9 throws `DeviceNotFound` and the id is no longer
entered. -/
theorem c9_checkout_at_most_once_witness :
    InMemoryDeviceRepository.checkoutDevice memAfterCheckout "a" 9 =
        Except.error RepoError.deviceNotFound ∧
    InMemoryDeviceRepository.isDeviceEntered memAfterCheckout "a" = false :=
  ⟨(c9_checkout_at_most_once memCompEntered "a" 5 9 memAfterCheckout (by decide)).1,
   (c9_checkout_at_most_once memCompEntered "a" 5 9 memAfterCheckout (by decide)).2.1⟩

/-- C10: in the in-memory implementation, after a successful
`checkinFrequentComputer(id, t)` (under the register-established
invariant that the stored record's device id matches its map key),
`isDeviceEntered(id)` returns true and `getEnteredDevices({})` contains
a record with that id tagged "frequent-computer". -/
theorem c10_frequent_checkin_entered :
    ∀ (st : MemState) (now : Nat) (id : String) (t : Nat)
      (fc' : FrequentComputer) (st' : MemState),
      (∀ fc, AList.get st.frequentComputer id = some fc → fc.device.id = id) →
      InMemoryDeviceRepository.checkinFrequentComputer st now id t = Except.ok (fc', st') →
      InMemoryDeviceRepository.isDeviceEntered st' id = true ∧
      ∃ e ∈ InMemoryDeviceRepository.getEnteredDevices st' ({} : DeviceCriteria),
        e.id = id ∧ e.type = DeviceType.frequentComputer := by
  intro st now id t fc' st' hkey h
  cases hg : AList.get st.frequentComputer id with
  | none =>
    simp [InMemoryDeviceRepository.checkinFrequentComputer, hg] at h
  | some fc =>
    simp only [InMemoryDeviceRepository.checkinFrequentComputer, hg] at h
    have hp := Except.ok.inj h
    have hst : st' =
        { st with
          frequentComputer := AList.set st.frequentComputer id
            { fc with device := { fc.device with checkinAt := some t } },
          enteredDevices := AList.set st.enteredDevices id
            (InMemoryDeviceRepository.mapDeviceFrequentComputer now
              { fc with device := { fc.device with checkinAt := some t } }) } :=
      (congrArg Prod.snd hp).symm
    constructor
    · rw [InMemoryDeviceRepository.isDeviceEntered, hst]
      exact AList.has_set_self _ _ _
    · refine ⟨InMemoryDeviceRepository.mapDeviceFrequentComputer now
        { fc with device := { fc.device with checkinAt := some t } }, ?_, ?_, rfl⟩
      · rw [InMemoryDeviceRepository.getEnteredDevices, hst]
        exact AList.mem_values_of_get _ id _ (AList.get_set_self _ _ _)
      · simpa [InMemoryDeviceRepository.mapDeviceFrequentComputer] using hkey fc hg

/-- C10 witness: the frequent computer `freqF1`, registered and checked
in at time 7, is in the entered-devices view tagged
"frequent-computer". -/
theorem c10_frequent_checkin_entered_witness :
    InMemoryDeviceRepository.isDeviceEntered memFreqEntered "f" = true ∧
    ∃ e ∈ InMemoryDeviceRepository.getEnteredDevices memFreqEntered ({} : DeviceCriteria),
      e.id = "f" ∧ e.type = DeviceType.frequentComputer :=
  c10_frequent_checkin_entered memF1 7 "f" 7
    { freqF1 with device := { freqF1.device with checkinAt := some 7 } } memFreqEntered
    (fun fc hfc => by
      have hget : AList.get memF1.frequentComputer "f" = some freqF1 := by decide
      rw [hget] at hfc
      injection hfc with h1
      rw [← h1]
      rfl)
    (by decide)

end HospitalSRT

